import Mathlib

/-!
Shallow embedding of `PicoBot/picobot_main.py` (mission controller for a
line-following pick-and-place robot) and proofs about its control logic.

Modelling conventions:
* Python ints are `Int`; Python floats are `ℚ` (all float literals in the
  source are exactly representable decimals, and no reachable comparison in
  `decide_action` lands close enough to a threshold for binary rounding to
  change its outcome, since every achievable mean weight has denominator ≤ 4
  while the thresholds have denominator 5).
* `ticks_ms()` timestamps are `Int`; `ticks_diff(a, b)` is `a - b`.
* The module-level mutable globals form one record, `SharedState`.
* Calls to the motor and arm ports (`motor_driver.TurnMotor`,
  `motor_driver.StopAllMotors`, `arm.control_servo`) are recorded as a list
  of `Cmd` values in the order the source issues them.
* Python `int(x)` on a float truncates toward zero: `pyint`.
-/

namespace PicoBot

/-- The four wheel selectors accepted by `MotorDriver.TurnMotor`. -/
inductive Wheel
  | LeftFront
  | LeftBack
  | RightFront
  | RightBack
deriving DecidableEq

/-- The direction argument of `MotorDriver.TurnMotor`. -/
inductive MotorDir
  | forward
  | backward
deriving DecidableEq

/-- One call to the motor or arm port. -/
inductive Cmd
  | turnMotor (w : Wheel) (d : MotorDir) (speed : Int)
  | stopAllMotors
  | controlServo (channel : Nat) (angle : Int)
deriving DecidableEq

/-- The steering-action strings returned by `decide_action`. -/
inductive Action
  | FORWARD
  | SLIGHT_RIGHT
  | MILD_RIGHT
  | HARD_RIGHT
  | SLIGHT_LEFT
  | MILD_LEFT
  | HARD_LEFT
  | ON_JUNCTION
  | LINE_LOST
  | SEARCHING
deriving DecidableEq

/-- The mission-mode strings: "IDLE", "OUTBOUND", "ARM_SEQ", "RETURNING", "DONE". -/
inductive Mode
  | IDLE
  | OUTBOUND
  | ARM_SEQ
  | RETURNING
  | DONE
deriving DecidableEq

/-- Python `int(x)` applied to a float: truncation toward zero. -/
def pyint (q : ℚ) : Int := if 0 ≤ q then ⌊q⌋ else -⌊-q⌋

/-- The module-level mutable globals of `picobot_main.py` gathered in one
record (line-follower runtime, line-follower tunables, mission state and
mission tunables). -/
structure SharedState where
  robot_running : Bool
  line_lost : Bool
  line_lost_time : Int
  last_direction : Action
  search_intensity : ℚ
  base_speed : Int
  slight_ratio : ℚ
  mild_ratio : ℚ
  hard_ratio : ℚ
  grace_period : Int
  search_ratio : ℚ
  mission_mode : Mode
  mission_stage : Nat
  mission_stage_started : Int
  mission_status_text : String
  base_center : Int
  base_offset_deg : Int
  base_first_side : String
  arm_transport_angle : Int
  arm_down_angle : Int
  grip_open_angle : Int
  grip_close_angle : Int
  servo_settle_ms : Int
  reverse_speed : Int
  reverse_time_ms : Int
  rotate_dir : String
  rotate_speed : Int
  rotate_time_ms : Int

/-- The initial values of the globals at module load. -/
def initState : SharedState where
  robot_running := false
  line_lost := false
  line_lost_time := 0
  last_direction := Action.FORWARD
  search_intensity := 1.0
  base_speed := 30
  slight_ratio := 0.9
  mild_ratio := 0.75
  hard_ratio := 0.6
  grace_period := 800
  search_ratio := 0.4
  mission_mode := Mode.IDLE
  mission_stage := 0
  mission_stage_started := 0
  mission_status_text := "Stopped"
  base_center := 90
  base_offset_deg := 45
  base_first_side := "left"
  arm_transport_angle := 100
  arm_down_angle := 70
  grip_open_angle := 120
  grip_close_angle := 60
  servo_settle_ms := 600
  reverse_speed := 35
  reverse_time_ms := 600
  rotate_dir := "left"
  rotate_speed := 40
  rotate_time_ms := 1000

/-- `base_angle_for(side)`: absolute base-servo angle for a side,
`clamp(base_center ∓ base_offset_deg, 0, 180)`. -/
def base_angle_for (st : SharedState) (side : String) : Int :=
  if side = "left" then max 0 (min 180 (st.base_center - st.base_offset_deg))
  else max 0 (min 180 (st.base_center + st.base_offset_deg))

/-- `decide_action(sensor_values)` with the 5-element list of pin reads
unrolled into five booleans (`true` = pin value 1), index 0 = rightmost
sensor.  Positional weights are `[2, 1, 0, -1, -2]`. -/
def decide_action (s0 s1 s2 s3 s4 : Bool) : Action :=
  if s0 && s1 && s2 && s3 && s4 then Action.ON_JUNCTION
  else if !s0 && !s1 && !s2 && !s3 && !s4 then Action.LINE_LOST
  else
    let weighted_sum : Int :=
      (if s0 then 2 else 0) + (if s1 then 1 else 0) + (if s2 then 0 else 0) +
        (if s3 then -1 else 0) + (if s4 then -2 else 0)
    let active_sensors : Nat :=
      (if s0 then 1 else 0) + (if s1 then 1 else 0) + (if s2 then 1 else 0) +
        (if s3 then 1 else 0) + (if s4 then 1 else 0)
    let mean : ℚ :=
      if active_sensors > 0 then (weighted_sum : ℚ) / (active_sensors : ℚ)
      else (weighted_sum : ℚ)
    if mean > 1.2 then Action.HARD_RIGHT
    else if mean > 0.6 then Action.MILD_RIGHT
    else if mean > 0.2 then Action.SLIGHT_RIGHT
    else if mean < -1.2 then Action.HARD_LEFT
    else if mean < -0.6 then Action.MILD_LEFT
    else if mean < -0.2 then Action.SLIGHT_LEFT
    else if mean = 0 ∧ (s0 || s1 || s2 || s3 || s4) then Action.FORWARD
    else Action.SEARCHING

/-- Python `"RIGHT" in last_direction` on the action strings. -/
def hasRight : Action → Bool
  | Action.SLIGHT_RIGHT | Action.MILD_RIGHT | Action.HARD_RIGHT => true
  | _ => false

/-- Python `"LEFT" in last_direction` on the action strings. -/
def hasLeft : Action → Bool
  | Action.SLIGHT_LEFT | Action.MILD_LEFT | Action.HARD_LEFT => true
  | _ => false

/-- A confident directional classification: FORWARD or a SLIGHT/MILD/HARD
variant (everything except ON_JUNCTION, LINE_LOST, SEARCHING). -/
def isConfident : Action → Bool
  | Action.ON_JUNCTION | Action.LINE_LOST | Action.SEARCHING => false
  | _ => true

/-- The four `TurnMotor(..., 'forward', ...)` calls of a steering case:
left wheel pair at `leftSpeed`, right wheel pair at `rightSpeed`. -/
def forwardCmds (leftSpeed rightSpeed : Int) : List Cmd :=
  [Cmd.turnMotor Wheel.LeftFront MotorDir.forward leftSpeed,
   Cmd.turnMotor Wheel.LeftBack MotorDir.forward leftSpeed,
   Cmd.turnMotor Wheel.RightFront MotorDir.forward rightSpeed,
   Cmd.turnMotor Wheel.RightBack MotorDir.forward rightSpeed]

/-- `turn_speed = int(base_speed * search_ratio * search_intensity)`. -/
def pivotSpeed (st : SharedState) : Int :=
  pyint ((st.base_speed : ℚ) * st.search_ratio * st.search_intensity)

/-- The recovery pivot toward the right: left pair forward, right pair
backward, all at `pivotSpeed`. -/
def pivotRightCmds (st : SharedState) : List Cmd :=
  [Cmd.turnMotor Wheel.LeftFront MotorDir.forward (pivotSpeed st),
   Cmd.turnMotor Wheel.LeftBack MotorDir.forward (pivotSpeed st),
   Cmd.turnMotor Wheel.RightFront MotorDir.backward (pivotSpeed st),
   Cmd.turnMotor Wheel.RightBack MotorDir.backward (pivotSpeed st)]

/-- The recovery pivot toward the left: left pair backward, right pair
forward, all at `pivotSpeed`. -/
def pivotLeftCmds (st : SharedState) : List Cmd :=
  [Cmd.turnMotor Wheel.LeftFront MotorDir.backward (pivotSpeed st),
   Cmd.turnMotor Wheel.LeftBack MotorDir.backward (pivotSpeed st),
   Cmd.turnMotor Wheel.RightFront MotorDir.forward (pivotSpeed st),
   Cmd.turnMotor Wheel.RightBack MotorDir.forward (pivotSpeed st)]

/-- `set_motor_action(action)`.  The source recurses with
`set_motor_action(last_direction)` in the LINE LOST / SEARCHING branches when
`last_direction` contains neither "RIGHT" nor "LEFT"; since the source never
stores LINE LOST or SEARCHING into `last_direction`, that call recurses at
most once, so a structural fuel argument (decremented only at that call site
and chosen large enough by the wrapper below) makes the definition total
without changing any reachable behaviour.  The final
`if action not in ["LINE LOST", "SEARCHING"]: last_direction = action`
assignment is folded into each corresponding case. -/
def set_motor_action_fuel : Nat → Action → Int → SharedState → SharedState × List Cmd
  | _, Action.FORWARD, _, st =>
      ({ st with search_intensity := 1.0, last_direction := Action.FORWARD },
       forwardCmds st.base_speed st.base_speed)
  | _, Action.SLIGHT_RIGHT, _, st =>
      ({ st with search_intensity := 1.0, last_direction := Action.SLIGHT_RIGHT },
       forwardCmds st.base_speed (pyint ((st.base_speed : ℚ) * st.slight_ratio)))
  | _, Action.MILD_RIGHT, _, st =>
      ({ st with search_intensity := 1.0, last_direction := Action.MILD_RIGHT },
       forwardCmds st.base_speed (pyint ((st.base_speed : ℚ) * st.mild_ratio)))
  | _, Action.HARD_RIGHT, _, st =>
      ({ st with search_intensity := 1.0, last_direction := Action.HARD_RIGHT },
       forwardCmds st.base_speed (pyint ((st.base_speed : ℚ) * st.hard_ratio)))
  | _, Action.SLIGHT_LEFT, _, st =>
      ({ st with search_intensity := 1.0, last_direction := Action.SLIGHT_LEFT },
       forwardCmds (pyint ((st.base_speed : ℚ) * st.slight_ratio)) st.base_speed)
  | _, Action.MILD_LEFT, _, st =>
      ({ st with search_intensity := 1.0, last_direction := Action.MILD_LEFT },
       forwardCmds (pyint ((st.base_speed : ℚ) * st.mild_ratio)) st.base_speed)
  | _, Action.HARD_LEFT, _, st =>
      ({ st with search_intensity := 1.0, last_direction := Action.HARD_LEFT },
       forwardCmds (pyint ((st.base_speed : ℚ) * st.hard_ratio)) st.base_speed)
  | _, Action.ON_JUNCTION, _, st =>
      ({ st with search_intensity := 1.0, last_direction := Action.ON_JUNCTION },
       [Cmd.stopAllMotors])
  | fuel, Action.LINE_LOST, now, st =>
      let st1 : SharedState := { st with search_intensity := st.search_intensity * 1.5 }
      if now - st1.line_lost_time < st1.grace_period then
        if hasRight st1.last_direction then (st1, pivotRightCmds st1)
        else if hasLeft st1.last_direction then (st1, pivotLeftCmds st1)
        else
          match fuel with
          | 0 => (st1, [])
          | fuel' + 1 => set_motor_action_fuel fuel' st1.last_direction now st1
      else
        ({ st1 with search_intensity := 1.0 }, [Cmd.stopAllMotors])
  | fuel, Action.SEARCHING, now, st =>
      if now - st.line_lost_time < st.grace_period then
        if hasRight st.last_direction then (st, pivotRightCmds st)
        else if hasLeft st.last_direction then (st, pivotLeftCmds st)
        else
          match fuel with
          | 0 => (st, [])
          | fuel' + 1 => set_motor_action_fuel fuel' st.last_direction now st
      else
        ({ st with search_intensity := 1.0 }, [Cmd.stopAllMotors])

/-- `set_motor_action(action)` as called from the periodic loops: a recursion
budget of 2 covers every call chain the source can produce. -/
def set_motor_action (a : Action) (now : Int) (st : SharedState) : SharedState × List Cmd :=
  set_motor_action_fuel 2 a now st

/-- `mission_mode_to_arm_sequence()`. -/
def mission_mode_to_arm_sequence (now : Int) (st : SharedState) : SharedState :=
  { st with
    mission_mode := Mode.ARM_SEQ
    mission_stage := 0
    mission_stage_started := now
    mission_status_text := "Manipulating object" }

/-- `line_follow_callback(timer)`: one 50 ms line-follow tick, with the two
`ticks_ms()` reads of a tick merged into the single instant `now` and the
five sensor reads passed in as booleans. -/
def line_follow_callback (now : Int) (s0 s1 s2 s3 s4 : Bool) (st : SharedState) :
    SharedState × List Cmd :=
  if st.robot_running = false then (st, [])
  else
    let act := decide_action s0 s1 s2 s3 s4
    if act = Action.ON_JUNCTION then
      let st1 := { st with robot_running := false }
      if st1.mission_mode = Mode.OUTBOUND then
        (mission_mode_to_arm_sequence now st1, [Cmd.stopAllMotors])
      else if st1.mission_mode = Mode.RETURNING then
        ({ st1 with
            mission_mode := Mode.DONE
            mission_status_text := "Mission accomplished (back at start)" },
         [Cmd.stopAllMotors])
      else (st1, [Cmd.stopAllMotors])
    else if act = Action.LINE_LOST then
      if st.line_lost = false then
        ({ st with line_lost := true, line_lost_time := now }, [])
      else if now - st.line_lost_time ≥ st.grace_period then (st, [Cmd.stopAllMotors])
      else set_motor_action act now st
    else
      let st1 := if st.line_lost then { st with line_lost := false } else st
      set_motor_action act now st1

/-- `resume_line_follow()`. -/
def resume_line_follow (st : SharedState) : SharedState :=
  { st with
    robot_running := true
    line_lost := false
    search_intensity := 1.0
    last_direction := Action.FORWARD }

/-- The four reverse `TurnMotor` calls issued when stage 6 fires. -/
def reverseCmds (st : SharedState) : List Cmd :=
  [Cmd.turnMotor Wheel.LeftFront MotorDir.backward st.reverse_speed,
   Cmd.turnMotor Wheel.LeftBack MotorDir.backward st.reverse_speed,
   Cmd.turnMotor Wheel.RightFront MotorDir.backward st.reverse_speed,
   Cmd.turnMotor Wheel.RightBack MotorDir.backward st.reverse_speed]

/-- The four rotate `TurnMotor` calls issued when stage 7 fires, direction
chosen by `rotate_dir`. -/
def rotateCmds (st : SharedState) : List Cmd :=
  if st.rotate_dir = "left" then
    [Cmd.turnMotor Wheel.LeftFront MotorDir.backward st.rotate_speed,
     Cmd.turnMotor Wheel.LeftBack MotorDir.backward st.rotate_speed,
     Cmd.turnMotor Wheel.RightFront MotorDir.forward st.rotate_speed,
     Cmd.turnMotor Wheel.RightBack MotorDir.forward st.rotate_speed]
  else
    [Cmd.turnMotor Wheel.LeftFront MotorDir.forward st.rotate_speed,
     Cmd.turnMotor Wheel.LeftBack MotorDir.forward st.rotate_speed,
     Cmd.turnMotor Wheel.RightFront MotorDir.backward st.rotate_speed,
     Cmd.turnMotor Wheel.RightBack MotorDir.backward st.rotate_speed]

/-- `mission_callback(timer)`: one 50 ms mission-sequencer tick. -/
def mission_callback (now : Int) (st : SharedState) : SharedState × List Cmd :=
  if st.mission_mode ≠ Mode.ARM_SEQ then (st, [])
  else
    match st.mission_stage with
    | 0 =>
        ({ st with mission_stage_started := now, mission_stage := 1 },
         [Cmd.controlServo 0 (base_angle_for st st.base_first_side)])
    | 1 =>
        if now - st.mission_stage_started ≥ st.servo_settle_ms then
          ({ st with mission_stage_started := now, mission_stage := 2 },
           [Cmd.controlServo 2 st.grip_close_angle])
        else (st, [])
    | 2 =>
        if now - st.mission_stage_started ≥ st.servo_settle_ms then
          ({ st with mission_stage_started := now, mission_stage := 3 },
           [Cmd.controlServo 1 st.arm_transport_angle])
        else (st, [])
    | 3 =>
        if now - st.mission_stage_started ≥ st.servo_settle_ms then
          ({ st with mission_stage_started := now, mission_stage := 4 },
           [Cmd.controlServo 0
              (base_angle_for st (if st.base_first_side = "left" then "right" else "left"))])
        else (st, [])
    | 4 =>
        if now - st.mission_stage_started ≥ st.servo_settle_ms then
          ({ st with mission_stage_started := now, mission_stage := 5 },
           [Cmd.controlServo 1 st.arm_down_angle])
        else (st, [])
    | 5 =>
        if now - st.mission_stage_started ≥ st.servo_settle_ms then
          ({ st with mission_stage_started := now, mission_stage := 6 },
           [Cmd.controlServo 2 st.grip_open_angle])
        else (st, [])
    | 6 =>
        if now - st.mission_stage_started ≥ st.servo_settle_ms then
          ({ st with mission_stage_started := now, mission_stage := 7 },
           Cmd.controlServo 1 st.arm_transport_angle :: reverseCmds st)
        else (st, [])
    | 7 =>
        if now - st.mission_stage_started ≥ st.reverse_time_ms then
          ({ st with mission_stage_started := now, mission_stage := 8 },
           Cmd.stopAllMotors :: rotateCmds st)
        else (st, [])
    | 8 =>
        if now - st.mission_stage_started ≥ st.rotate_time_ms then
          ({ st with mission_stage := 9 }, [Cmd.stopAllMotors])
        else (st, [])
    | 9 =>
        (resume_line_follow
          { st with
              mission_mode := Mode.RETURNING
              mission_status_text := "Returning to start" },
         [])
    | _ => (st, [])

/-- A control request's recognized query fields.  For a numeric key,
`none` means the key is absent from the request, `some none` means it is
present but its raw text makes `int()` / `float()` raise (a malformed
value), and `some (some v)` means it parses to `v`.  The two side-selector
keys carry their raw string, which never fails to parse.  This abstracts the
source's substring search `"key=" in request_str` followed by
`request_str.split("key=")[1].split("&")[0]`, assuming each present key's
first occurrence in the request is its own. -/
structure Request where
  speed : Option (Option Int) := none
  slight : Option (Option ℚ) := none
  mild : Option (Option ℚ) := none
  hard : Option (Option ℚ) := none
  grace : Option (Option Int) := none
  search : Option (Option ℚ) := none
  base_center : Option (Option Int) := none
  base_offset : Option (Option Int) := none
  first_side : Option String := none
  arm_transport : Option (Option Int) := none
  arm_down : Option (Option Int) := none
  grip_open : Option (Option Int) := none
  grip_close : Option (Option Int) := none
  servo_settle : Option (Option Int) := none
  reverse_speed : Option (Option Int) := none
  reverse_time : Option (Option Int) := none
  rotate_dir : Option String := none
  rotate_speed : Option (Option Int) := none
  rotate_time : Option (Option Int) := none

/-- A request with no recognized query keys. -/
def emptyReq : Request := {}

/-- Apply one `if "key=" in request_str: field = int(...)` block.  A present
malformed value raises out of the handler, carrying the state mutated so
far (`Except.error`); assignment happens only on a successful parse. -/
def applyIntField (fld : Option (Option Int)) (st : SharedState)
    (assign : SharedState → Int → SharedState) : Except SharedState SharedState :=
  match fld with
  | none => Except.ok st
  | some none => Except.error st
  | some (some v) => Except.ok (assign st v)

/-- Apply one `if "key=" in request_str: field = float(...)` block. -/
def applyRatField (fld : Option (Option ℚ)) (st : SharedState)
    (assign : SharedState → ℚ → SharedState) : Except SharedState SharedState :=
  match fld with
  | none => Except.ok st
  | some none => Except.error st
  | some (some v) => Except.ok (assign st v)

/-- The parameter-override block of the `action=start` handler, in source
order.  In this handler an out-of-range `first_side` / `rotate_dir` value is
replaced by `"left"` (the source assigns the raw value, then overwrites it
when it is neither "left" nor "right"). -/
def start_params (r : Request) (st : SharedState) : Except SharedState SharedState := do
  let st ← applyIntField r.speed st (fun s v => { s with base_speed := v })
  let st ← applyRatField r.slight st (fun s v => { s with slight_ratio := v })
  let st ← applyRatField r.mild st (fun s v => { s with mild_ratio := v })
  let st ← applyRatField r.hard st (fun s v => { s with hard_ratio := v })
  let st ← applyIntField r.grace st (fun s v => { s with grace_period := v })
  let st ← applyRatField r.search st (fun s v => { s with search_ratio := v })
  let st ← applyIntField r.base_center st (fun s v => { s with base_center := v })
  let st ← applyIntField r.base_offset st (fun s v => { s with base_offset_deg := v })
  let st := match r.first_side with
    | none => st
    | some v =>
        { st with base_first_side := if v = "left" || v = "right" then v else "left" }
  let st ← applyIntField r.arm_transport st (fun s v => { s with arm_transport_angle := v })
  let st ← applyIntField r.arm_down st (fun s v => { s with arm_down_angle := v })
  let st ← applyIntField r.grip_open st (fun s v => { s with grip_open_angle := v })
  let st ← applyIntField r.grip_close st (fun s v => { s with grip_close_angle := v })
  let st ← applyIntField r.servo_settle st (fun s v => { s with servo_settle_ms := v })
  let st ← applyIntField r.reverse_speed st (fun s v => { s with reverse_speed := v })
  let st ← applyIntField r.reverse_time st (fun s v => { s with reverse_time_ms := v })
  let st := match r.rotate_dir with
    | none => st
    | some v =>
        { st with rotate_dir := if v = "left" || v = "right" then v else "left" }
  let st ← applyIntField r.rotate_speed st (fun s v => { s with rotate_speed := v })
  let st ← applyIntField r.rotate_time st (fun s v => { s with rotate_time_ms := v })
  pure st

/-- The parameter-override block of the `action=update` handler, in source
order.  Here an out-of-range `first_side` / `rotate_dir` value is simply not
assigned (the current value is kept). -/
def update_params (r : Request) (st : SharedState) : Except SharedState SharedState := do
  let st ← applyIntField r.speed st (fun s v => { s with base_speed := v })
  let st ← applyRatField r.slight st (fun s v => { s with slight_ratio := v })
  let st ← applyRatField r.mild st (fun s v => { s with mild_ratio := v })
  let st ← applyRatField r.hard st (fun s v => { s with hard_ratio := v })
  let st ← applyIntField r.grace st (fun s v => { s with grace_period := v })
  let st ← applyRatField r.search st (fun s v => { s with search_ratio := v })
  let st ← applyIntField r.base_center st (fun s v => { s with base_center := v })
  let st ← applyIntField r.base_offset st (fun s v => { s with base_offset_deg := v })
  let st := match r.first_side with
    | none => st
    | some v => if v = "left" || v = "right" then { st with base_first_side := v } else st
  let st ← applyIntField r.arm_transport st (fun s v => { s with arm_transport_angle := v })
  let st ← applyIntField r.arm_down st (fun s v => { s with arm_down_angle := v })
  let st ← applyIntField r.grip_open st (fun s v => { s with grip_open_angle := v })
  let st ← applyIntField r.grip_close st (fun s v => { s with grip_close_angle := v })
  let st ← applyIntField r.servo_settle st (fun s v => { s with servo_settle_ms := v })
  let st ← applyIntField r.reverse_speed st (fun s v => { s with reverse_speed := v })
  let st ← applyIntField r.reverse_time st (fun s v => { s with reverse_time_ms := v })
  let st := match r.rotate_dir with
    | none => st
    | some v => if v = "left" || v = "right" then { st with rotate_dir := v } else st
  let st ← applyIntField r.rotate_speed st (fun s v => { s with rotate_speed := v })
  let st ← applyIntField r.rotate_time st (fun s v => { s with rotate_time_ms := v })
  pure st

/-- The `GET /?action=start` branch of the server loop.  Returns the new
state, the port commands issued, and whether the handler ran to completion
and sent its "OK" response (`false` = an exception escaped to the server
loop's `except` clause, which closes the connection without responding). -/
def start_handler (r : Request) (st : SharedState) : SharedState × List Cmd × Bool :=
  match start_params r st with
  | Except.error st1 => (st1, [], false)
  | Except.ok st1 =>
      let cmds := [Cmd.controlServo 0 st1.base_center,
                   Cmd.controlServo 1 st1.arm_transport_angle,
                   Cmd.controlServo 2 st1.grip_open_angle]
      let st2 := { st1 with
                    mission_mode := Mode.OUTBOUND
                    mission_status_text := "Going to end marker" }
      (resume_line_follow st2, cmds, true)

/-- The `GET /?action=stop` branch of the server loop. -/
def stop_handler (st : SharedState) : SharedState × List Cmd :=
  ({ st with
      robot_running := false
      mission_mode := Mode.IDLE
      mission_status_text := "Stopped by user" },
   [Cmd.stopAllMotors])

/-- The `GET /?action=update` branch of the server loop; same completion
flag convention as `start_handler`. -/
def update_handler (r : Request) (st : SharedState) : SharedState × List Cmd × Bool :=
  match update_params r st with
  | Except.error st1 => (st1, [], false)
  | Except.ok st1 => (st1, [], true)

/-- One step of either periodic timer, with its tick instant and (for the
line-follow timer) the sensor snapshot it samples. -/
inductive Step
  | line (now : Int) (s0 s1 s2 s3 s4 : Bool)
  | mission (now : Int)

/-- Execute one timer step. -/
def runStep (st : SharedState) : Step → SharedState × List Cmd
  | Step.line now s0 s1 s2 s3 s4 => line_follow_callback now s0 s1 s2 s3 s4 st
  | Step.mission now => mission_callback now st

/-- Execute a sequence of timer steps, concatenating the issued commands. -/
def runSteps (st : SharedState) : List Step → SharedState × List Cmd
  | [] => (st, [])
  | s :: rest =>
      let r1 := runStep st s
      let r2 := runSteps r1.1 rest
      (r2.1, r1.2 ++ r2.2)

/-- Execute a sequence of mission-sequencer ticks at the given instants. -/
def runMission (st : SharedState) : List Int → SharedState × List Cmd
  | [] => (st, [])
  | t :: ts =>
      let r1 := mission_callback t st
      let r2 := runMission r1.1 ts
      (r2.1, r1.2 ++ r2.2)

/-- A state in which the robot is driving the outbound leg. -/
def outboundState : SharedState :=
  { initState with robot_running := true, mission_mode := Mode.OUTBOUND }

/-- A state in which the robot is driving the returning leg. -/
def returningState : SharedState :=
  { initState with robot_running := true, mission_mode := Mode.RETURNING }

/-- The dwell a stage must wait out before advancing: `servo_settle_ms` for
the servo stages 1–6, `reverse_time_ms` for stage 7, `rotate_time_ms` for
stage 8. -/
def stageDwell (st : SharedState) (k : Nat) : Int :=
  if k ≤ 6 then st.servo_settle_ms
  else if k = 7 then st.reverse_time_ms
  else st.rotate_time_ms

/-- Mission-tick instants that let every stage fire as soon as its dwell has
elapsed: stage 0 at t=0, the six servo stages each `servo_settle_ms` later,
then the reverse and rotate dwells, and one final tick for stage 9 (which
has no dwell). -/
def missionSchedule (st : SharedState) : List Int :=
  [0, st.servo_settle_ms, 2 * st.servo_settle_ms, 3 * st.servo_settle_ms,
   4 * st.servo_settle_ms, 5 * st.servo_settle_ms, 6 * st.servo_settle_ms,
   6 * st.servo_settle_ms + st.reverse_time_ms,
   6 * st.servo_settle_ms + st.reverse_time_ms + st.rotate_time_ms,
   6 * st.servo_settle_ms + st.reverse_time_ms + st.rotate_time_ms]

/-- The exact command sequence an ARM_SEQ pass is expected to emit: base to
the first side, gripper close, arm to transport, base to the opposite side,
arm down, gripper open, arm to transport plus reverse start, reverse stop
plus rotate start, rotate stop. -/
def expectedTrace (st : SharedState) : List Cmd :=
  [Cmd.controlServo 0 (base_angle_for st st.base_first_side),
   Cmd.controlServo 2 st.grip_close_angle,
   Cmd.controlServo 1 st.arm_transport_angle,
   Cmd.controlServo 0
     (base_angle_for st (if st.base_first_side = "left" then "right" else "left")),
   Cmd.controlServo 1 st.arm_down_angle,
   Cmd.controlServo 2 st.grip_open_angle,
   Cmd.controlServo 1 st.arm_transport_angle] ++
    reverseCmds st ++ [Cmd.stopAllMotors] ++ rotateCmds st ++ [Cmd.stopAllMotors]

/-- Commands still to be emitted once stage 8 has been entered. -/
def traceFrom8 (s : SharedState) : List Cmd := [Cmd.stopAllMotors]

/-- Commands still to be emitted once stage 7 has been entered. -/
def traceFrom7 (s : SharedState) : List Cmd :=
  (Cmd.stopAllMotors :: rotateCmds s) ++ traceFrom8 s

/-- Commands still to be emitted once stage 6 has been entered. -/
def traceFrom6 (s : SharedState) : List Cmd :=
  (Cmd.controlServo 1 s.arm_transport_angle :: reverseCmds s) ++ traceFrom7 s

/-- Commands still to be emitted once stage 5 has been entered. -/
def traceFrom5 (s : SharedState) : List Cmd :=
  Cmd.controlServo 2 s.grip_open_angle :: traceFrom6 s

/-- Commands still to be emitted once stage 4 has been entered. -/
def traceFrom4 (s : SharedState) : List Cmd :=
  Cmd.controlServo 1 s.arm_down_angle :: traceFrom5 s

/-- Commands still to be emitted once stage 3 has been entered. -/
def traceFrom3 (s : SharedState) : List Cmd :=
  Cmd.controlServo 0
      (base_angle_for s (if s.base_first_side = "left" then "right" else "left")) ::
    traceFrom4 s

/-- Commands still to be emitted once stage 2 has been entered. -/
def traceFrom2 (s : SharedState) : List Cmd :=
  Cmd.controlServo 1 s.arm_transport_angle :: traceFrom3 s

/-- Commands still to be emitted once stage 1 has been entered. -/
def traceFrom1 (s : SharedState) : List Cmd :=
  Cmd.controlServo 2 s.grip_close_angle :: traceFrom2 s

/-- Commands still to be emitted from stage 0. -/
def traceFrom0 (s : SharedState) : List Cmd :=
  Cmd.controlServo 0 (base_angle_for s s.base_first_side) :: traceFrom1 s

/-- The commands an ARM_SEQ pass still owes when sitting at a given stage
(stages 9 and beyond owe nothing). -/
def stageTrace (s : SharedState) : Nat → List Cmd
  | 0 => traceFrom0 s
  | 1 => traceFrom1 s
  | 2 => traceFrom2 s
  | 3 => traceFrom3 s
  | 4 => traceFrom4 s
  | 5 => traceFrom5 s
  | 6 => traceFrom6 s
  | 7 => traceFrom7 s
  | 8 => traceFrom8 s
  | _ => []

/-! ## Helper lemmas -/

/-- A line-follow tick is a no-op when `robot_running` is false. -/
lemma lfc_not_running (st : SharedState) (h : st.robot_running = false)
    (now : Int) (s0 s1 s2 s3 s4 : Bool) :
    line_follow_callback now s0 s1 s2 s3 s4 st = (st, []) := by
  simp [line_follow_callback, h]

/-- A mission tick is a no-op when the mode is not ARM_SEQ. -/
lemma mc_not_armseq (st : SharedState) (h : st.mission_mode ≠ Mode.ARM_SEQ)
    (now : Int) : mission_callback now st = (st, []) := by
  simp [mission_callback, h]

/-- From a stopped, idle state, any sequence of timer steps changes nothing
and issues no command. -/
lemma runSteps_stopped (steps : List Step) (st : SharedState)
    (h1 : st.robot_running = false) (h2 : st.mission_mode = Mode.IDLE) :
    runSteps st steps = (st, []) := by
  induction steps with
  | nil => rfl
  | cons s rest ih =>
      have hstep : runStep st s = (st, []) := by
        cases s with
        | line now s0 s1 s2 s3 s4 => exact lfc_not_running st h1 now s0 s1 s2 s3 s4
        | mission now => exact mc_not_armseq st (by simp [h2]) now
      simp [runSteps, hstep, ih]

/-- Unfolding one mission tick of a run. -/
lemma runMission_cons (st : SharedState) (t : Int) (ts : List Int) :
    runMission st (t :: ts) =
      ((runMission (mission_callback t st).1 ts).1,
       (mission_callback t st).2 ++ (runMission (mission_callback t st).1 ts).2) := rfl

/-- Stage 0 fires unconditionally: base servo to the first side. -/
lemma mc_stage0 (s : SharedState) (now : Int) (hm : s.mission_mode = Mode.ARM_SEQ)
    (hs : s.mission_stage = 0) :
    mission_callback now s =
      ({ s with mission_stage_started := now, mission_stage := 1 },
       [Cmd.controlServo 0 (base_angle_for s s.base_first_side)]) := by
  simp [mission_callback, hm, hs]

/-- Stage 1 fires after the servo settle dwell: close the gripper. -/
lemma mc_stage1 (s : SharedState) (now : Int) (hm : s.mission_mode = Mode.ARM_SEQ)
    (hs : s.mission_stage = 1) (hge : now - s.mission_stage_started ≥ s.servo_settle_ms) :
    mission_callback now s =
      ({ s with mission_stage_started := now, mission_stage := 2 },
       [Cmd.controlServo 2 s.grip_close_angle]) := by
  simp [mission_callback, hm, hs, hge]

/-- Stage 2 fires after the servo settle dwell: arm to transport. -/
lemma mc_stage2 (s : SharedState) (now : Int) (hm : s.mission_mode = Mode.ARM_SEQ)
    (hs : s.mission_stage = 2) (hge : now - s.mission_stage_started ≥ s.servo_settle_ms) :
    mission_callback now s =
      ({ s with mission_stage_started := now, mission_stage := 3 },
       [Cmd.controlServo 1 s.arm_transport_angle]) := by
  simp [mission_callback, hm, hs, hge]

/-- Stage 3 fires after the servo settle dwell: base servo to the other side. -/
lemma mc_stage3 (s : SharedState) (now : Int) (hm : s.mission_mode = Mode.ARM_SEQ)
    (hs : s.mission_stage = 3) (hge : now - s.mission_stage_started ≥ s.servo_settle_ms) :
    mission_callback now s =
      ({ s with mission_stage_started := now, mission_stage := 4 },
       [Cmd.controlServo 0
          (base_angle_for s (if s.base_first_side = "left" then "right" else "left"))]) := by
  simp [mission_callback, hm, hs, hge]

/-- Stage 4 fires after the servo settle dwell: arm down. -/
lemma mc_stage4 (s : SharedState) (now : Int) (hm : s.mission_mode = Mode.ARM_SEQ)
    (hs : s.mission_stage = 4) (hge : now - s.mission_stage_started ≥ s.servo_settle_ms) :
    mission_callback now s =
      ({ s with mission_stage_started := now, mission_stage := 5 },
       [Cmd.controlServo 1 s.arm_down_angle]) := by
  simp [mission_callback, hm, hs, hge]

/-- Stage 5 fires after the servo settle dwell: open the gripper. -/
lemma mc_stage5 (s : SharedState) (now : Int) (hm : s.mission_mode = Mode.ARM_SEQ)
    (hs : s.mission_stage = 5) (hge : now - s.mission_stage_started ≥ s.servo_settle_ms) :
    mission_callback now s =
      ({ s with mission_stage_started := now, mission_stage := 6 },
       [Cmd.controlServo 2 s.grip_open_angle]) := by
  simp [mission_callback, hm, hs, hge]

/-- Stage 6 fires after the servo settle dwell: arm to transport and start
reversing. -/
lemma mc_stage6 (s : SharedState) (now : Int) (hm : s.mission_mode = Mode.ARM_SEQ)
    (hs : s.mission_stage = 6) (hge : now - s.mission_stage_started ≥ s.servo_settle_ms) :
    mission_callback now s =
      ({ s with mission_stage_started := now, mission_stage := 7 },
       Cmd.controlServo 1 s.arm_transport_angle :: reverseCmds s) := by
  simp [mission_callback, hm, hs, hge]

/-- Stage 7 fires after the reverse dwell: stop, then start rotating. -/
lemma mc_stage7 (s : SharedState) (now : Int) (hm : s.mission_mode = Mode.ARM_SEQ)
    (hs : s.mission_stage = 7) (hge : now - s.mission_stage_started ≥ s.reverse_time_ms) :
    mission_callback now s =
      ({ s with mission_stage_started := now, mission_stage := 8 },
       Cmd.stopAllMotors :: rotateCmds s) := by
  simp [mission_callback, hm, hs, hge]

/-- Stage 8 fires after the rotate dwell: stop (stage timestamp is not
refreshed here). -/
lemma mc_stage8 (s : SharedState) (now : Int) (hm : s.mission_mode = Mode.ARM_SEQ)
    (hs : s.mission_stage = 8) (hge : now - s.mission_stage_started ≥ s.rotate_time_ms) :
    mission_callback now s =
      ({ s with mission_stage := 9 }, [Cmd.stopAllMotors]) := by
  simp [mission_callback, hm, hs, hge]

/-- Stage 9 fires unconditionally: transition to RETURNING and resume line
following; no command is issued. -/
lemma mc_stage9 (s : SharedState) (now : Int) (hm : s.mission_mode = Mode.ARM_SEQ)
    (hs : s.mission_stage = 9) :
    mission_callback now s =
      ({ s with
          robot_running := true
          line_lost := false
          search_intensity := 1.0
          last_direction := Action.FORWARD
          mission_mode := Mode.RETURNING
          mission_status_text := "Returning to start" }, []) := by
  simp [mission_callback, hm, hs, resume_line_follow]

/-- A run of mission ticks from a state outside ARM_SEQ changes nothing and
emits nothing. -/
lemma runMission_not_armseq (ts : List Int) (s : SharedState)
    (h : s.mission_mode ≠ Mode.ARM_SEQ) : runMission s ts = (s, []) := by
  induction ts with
  | nil => rfl
  | cons t ts ih => simp [runMission, mc_not_armseq s h t, ih]

/-- One ARM_SEQ mission tick either stays in ARM_SEQ and pays down exactly
the owed command trace, or (at stage 9) switches to RETURNING emitting
nothing with nothing owed. -/
lemma mission_tick_trace (s : SharedState) (t : Int)
    (hm : s.mission_mode = Mode.ARM_SEQ) :
    ((mission_callback t s).1.mission_mode = Mode.ARM_SEQ ∧
     (mission_callback t s).2 ++
         stageTrace (mission_callback t s).1 (mission_callback t s).1.mission_stage =
       stageTrace s s.mission_stage) ∨
    ((mission_callback t s).1.mission_mode = Mode.RETURNING ∧
     (mission_callback t s).2 = [] ∧ stageTrace s s.mission_stage = []) := by
  simp only [mission_callback, hm, ne_eq, not_true_eq_false, if_false]
  split
  all_goals try split
  all_goals
    first
      | (right
         simp_all [stageTrace, resume_line_follow]
         done)
      | (left
         exact ⟨by rfl, by
           simp_all [stageTrace, traceFrom0, traceFrom1, traceFrom2, traceFrom3,
             traceFrom4, traceFrom5, traceFrom6, traceFrom7, traceFrom8,
             reverseCmds, rotateCmds, base_angle_for]⟩)
      | (left
         exact ⟨hm, by
           simp_all [stageTrace, traceFrom0, traceFrom1, traceFrom2, traceFrom3,
             traceFrom4, traceFrom5, traceFrom6, traceFrom7, traceFrom8,
             reverseCmds, rotateCmds, base_angle_for]⟩)

/-- Any run of mission ticks that starts in ARM_SEQ and ends in RETURNING
emits exactly the owed command trace of its starting stage. -/
lemma runMission_trace (ts : List Int) (s : SharedState)
    (hm : s.mission_mode = Mode.ARM_SEQ)
    (hr : (runMission s ts).1.mission_mode = Mode.RETURNING) :
    (runMission s ts).2 = stageTrace s s.mission_stage := by
  induction ts generalizing s with
  | nil =>
      rw [show runMission s [] = (s, []) from rfl] at hr
      rw [hm] at hr
      cases hr
  | cons t ts ih =>
      rw [runMission_cons] at hr ⊢
      rcases mission_tick_trace s t hm with ⟨hm1, htr⟩ | ⟨hm1, hcs, hrem⟩
      · have := ih (mission_callback t s).1 hm1 hr
        simp only [this, ← htr, List.append_assoc]
      · have hstop : runMission (mission_callback t s).1 ts = ((mission_callback t s).1, []) :=
          runMission_not_armseq ts _ (by rw [hm1]; simp)
        simp [hstop, hcs, hrem]

/-! ## Claims -/

/-- Claim C9: for every sensor snapshot the classifier never returns
SEARCHING — with 1 to 4 active sensors the mean weight is either zero
(FORWARD) or has absolute value at least 1/4 > 0.2. -/
theorem searching_unreachable (s0 s1 s2 s3 s4 : Bool) :
    decide_action s0 s1 s2 s3 s4 ≠ Action.SEARCHING := by
  cases s0 <;> cases s1 <;> cases s2 <;> cases s3 <;> cases s4 <;>
    norm_num [decide_action] <;> decide

/-- Claim C4 (counterexample): a single active sensor need not yield a HARD
variant — a lone active right-middle sensor (position 1, weight 1) is
classified MILD_RIGHT, so it is neither HARD_RIGHT nor HARD_LEFT. -/
theorem single_sensor_hard_cex :
    decide_action false true false false false = Action.MILD_RIGHT ∧
    decide_action false true false false false ≠ Action.HARD_RIGHT ∧
    decide_action false true false false false ≠ Action.HARD_LEFT := by
  refine ⟨?_, ?_, ?_⟩ <;> norm_num [decide_action] <;> decide

/-- Claim C4 (amended): with exactly one active sensor, an extreme position
(weight ±2) yields the HARD variant whose side matches the weight's sign,
while weight ±1 yields the MILD variant of the matching side and the center
sensor (weight 0) yields FORWARD. -/
theorem single_sensor_classification :
    decide_action true false false false false = Action.HARD_RIGHT ∧
    decide_action false false false false true = Action.HARD_LEFT ∧
    decide_action false true false false false = Action.MILD_RIGHT ∧
    decide_action false false false true false = Action.MILD_LEFT ∧
    decide_action false false true false false = Action.FORWARD := by
  refine ⟨?_, ?_, ?_, ?_, ?_⟩ <;> norm_num [decide_action]

/-- Claim C8 (counterexample): processing ON_JUNCTION does change
`last_direction` — from FORWARD it becomes ON_JUNCTION. -/
theorem on_junction_last_direction_cex :
    (set_motor_action Action.ON_JUNCTION 0 initState).1.last_direction ≠
      initState.last_direction := by
  decide

/-- Claim C8 (amended): processing ON_JUNCTION issues an all-stop, resets
`search_intensity` to 1.0, and overwrites `last_direction` with ON_JUNCTION
(the final `last_direction = action` assignment applies to it). -/
theorem on_junction_motion (st : SharedState) (now : Int) :
    set_motor_action Action.ON_JUNCTION now st =
      ({ st with search_intensity := 1.0, last_direction := Action.ON_JUNCTION },
       [Cmd.stopAllMotors]) := rfl

/-- Claim C10: the first tick that classifies LINE_LOST (lost flag still
clear) only sets the flag and its timestamp; it issues no motor command, so
the wheels keep executing the previously issued command. -/
theorem first_lost_tick_no_command (st : SharedState) (now : Int)
    (s0 s1 s2 s3 s4 : Bool) (hrun : st.robot_running = true)
    (hact : decide_action s0 s1 s2 s3 s4 = Action.LINE_LOST)
    (hlost : st.line_lost = false) :
    line_follow_callback now s0 s1 s2 s3 s4 st =
      ({ st with line_lost := true, line_lost_time := now }, []) := by
  simp [line_follow_callback, hrun, hact, hlost]

/-- Claim C10 witness at a concrete running state and the all-clear
snapshot. -/
theorem first_lost_tick_no_command_witness :
    line_follow_callback 7 false false false false false
        { initState with robot_running := true } =
      ({ initState with
          robot_running := true
          line_lost := true
          line_lost_time := 7 }, []) :=
  first_lost_tick_no_command { initState with robot_running := true } 7
    false false false false false rfl rfl rfl

/-- Claim C1: the stop handler forces `robot_running = false`,
`mission_mode = IDLE` and issues exactly an all-stop, and from the resulting
state every sequence of line-follow and mission ticks leaves the state
unchanged and issues no motor command (only a start request can set
`robot_running` or a non-IDLE mode again). -/
theorem stop_request_quiesces (st : SharedState) (steps : List Step) :
    (stop_handler st).2 = [Cmd.stopAllMotors] ∧
    (stop_handler st).1.robot_running = false ∧
    (stop_handler st).1.mission_mode = Mode.IDLE ∧
    runSteps (stop_handler st).1 steps = ((stop_handler st).1, []) := by
  refine ⟨rfl, rfl, rfl, ?_⟩
  exact runSteps_stopped steps _ rfl rfl

/-- Claim C3 (counterexample): at a junction on the RETURNING leg the status
text the code stores is "Mission accomplished (back at start)", not
"Mission accomplished." as claimed. -/
theorem junction_status_text_cex :
    (line_follow_callback 0 true true true true true returningState).1.mission_status_text =
      "Mission accomplished (back at start)" ∧
    (line_follow_callback 0 true true true true true returningState).1.mission_status_text ≠
      "Mission accomplished." := by
  constructor
  · rfl
  · decide

/-- Claim C3 (amended): a running line-follow tick that classifies
ON_JUNCTION issues exactly an all-stop and clears `robot_running`; from
OUTBOUND it enters ARM_SEQ at stage 0 with a fresh stage timestamp and
status "Manipulating object", and from RETURNING it enters DONE with status
"Mission accomplished (back at start)". -/
theorem junction_tick (st : SharedState) (now : Int) (s0 s1 s2 s3 s4 : Bool)
    (hrun : st.robot_running = true)
    (hact : decide_action s0 s1 s2 s3 s4 = Action.ON_JUNCTION) :
    (line_follow_callback now s0 s1 s2 s3 s4 st).2 = [Cmd.stopAllMotors] ∧
    (line_follow_callback now s0 s1 s2 s3 s4 st).1.robot_running = false ∧
    (st.mission_mode = Mode.OUTBOUND →
      (line_follow_callback now s0 s1 s2 s3 s4 st).1 =
        { st with
            robot_running := false
            mission_mode := Mode.ARM_SEQ
            mission_stage := 0
            mission_stage_started := now
            mission_status_text := "Manipulating object" }) ∧
    (st.mission_mode = Mode.RETURNING →
      (line_follow_callback now s0 s1 s2 s3 s4 st).1 =
        { st with
            robot_running := false
            mission_mode := Mode.DONE
            mission_status_text := "Mission accomplished (back at start)" }) := by
  cases hm : st.mission_mode <;>
    simp [line_follow_callback, hrun, hact, mission_mode_to_arm_sequence, hm]

/-- Claim C3 witness: a junction tick from a concrete OUTBOUND state. -/
theorem junction_tick_witness :
    (line_follow_callback 3 true true true true true outboundState).2 =
      [Cmd.stopAllMotors] ∧
    (line_follow_callback 3 true true true true true outboundState).1.robot_running =
      false ∧
    (outboundState.mission_mode = Mode.OUTBOUND →
      (line_follow_callback 3 true true true true true outboundState).1 =
        { outboundState with
            robot_running := false
            mission_mode := Mode.ARM_SEQ
            mission_stage := 0
            mission_stage_started := 3
            mission_status_text := "Manipulating object" }) ∧
    (outboundState.mission_mode = Mode.RETURNING →
      (line_follow_callback 3 true true true true true outboundState).1 =
        { outboundState with
            robot_running := false
            mission_mode := Mode.DONE
            mission_status_text := "Mission accomplished (back at start)" }) :=
  junction_tick outboundState 3 true true true true true rfl rfl

/-- Claim C5 (counterexample): a start request whose `grace` value is
malformed but whose `rotate_time` value is well-formed neither applies the
later field nor completes the request — the handler aborts without
responding and `rotate_time_ms` keeps its prior value 1000. -/
theorem malformed_param_cex :
    (start_handler
        { emptyReq with grace := some none, rotate_time := some (some 1234) }
        initState).2.2 = false ∧
    (start_handler
        { emptyReq with grace := some none, rotate_time := some (some 1234) }
        initState).1.rotate_time_ms = 1000 := by
  constructor <;> rfl

/-- Claim C5 (amended): a malformed numeric parameter aborts a start or
update request at that field: fields parsed earlier in source order (here
`speed`) are applied, the malformed field and every later field (here
`rotate_time`) are left unchanged, no commands are issued, the mode/running
state is untouched, and no response is sent — the exception escapes to the
server loop's except clause. -/
theorem malformed_param_aborts (st : SharedState) (v w : Int) :
    start_handler
        { emptyReq with
            speed := some (some v), grace := some none, rotate_time := some (some w) }
        st = ({ st with base_speed := v }, [], false) ∧
    update_handler
        { emptyReq with
            speed := some (some v), grace := some none, rotate_time := some (some w) }
        st = ({ st with base_speed := v }, [], false) := by
  constructor <;> rfl

/-- Claim C6 (counterexample): in the start handler an invalid `first_side`
value does not keep the current value — from a state whose first side is
"right", `first_side=up` resets the field to "left". -/
theorem side_selector_start_cex :
    (start_handler { emptyReq with first_side := some "up" }
        { initState with base_first_side := "right" }).1.base_first_side ≠
      "right" := by
  decide

/-- Claim C6 (amended): for `first_side` / `rotate_dir` values other than
"left"/"right", the update handler keeps the current value, but the start
handler resets the field to "left". -/
theorem side_selector_validation (st : SharedState) (v : String)
    (h1 : v ≠ "left") (h2 : v ≠ "right") :
    (update_handler { emptyReq with first_side := some v } st).1.base_first_side =
      st.base_first_side ∧
    (update_handler { emptyReq with rotate_dir := some v } st).1.rotate_dir =
      st.rotate_dir ∧
    (start_handler { emptyReq with first_side := some v } st).1.base_first_side =
      "left" ∧
    (start_handler { emptyReq with rotate_dir := some v } st).1.rotate_dir =
      "left" := by
  refine ⟨?_, ?_, ?_, ?_⟩ <;>
    simp [update_handler, update_params, start_handler, start_params,
      applyIntField, applyRatField, emptyReq, resume_line_follow, h1, h2,
      Except.instMonad, Except.bind, Except.pure]

/-- Claim C6 witness at the invalid selector value "up" and a state whose
selectors are both "right". -/
theorem side_selector_validation_witness :
    (update_handler { emptyReq with first_side := some "up" }
        { initState with base_first_side := "right", rotate_dir := "right" }).1.base_first_side =
      ({ initState with base_first_side := "right", rotate_dir := "right" } : SharedState).base_first_side ∧
    (update_handler { emptyReq with rotate_dir := some "up" }
        { initState with base_first_side := "right", rotate_dir := "right" }).1.rotate_dir =
      ({ initState with base_first_side := "right", rotate_dir := "right" } : SharedState).rotate_dir ∧
    (start_handler { emptyReq with first_side := some "up" }
        { initState with base_first_side := "right", rotate_dir := "right" }).1.base_first_side =
      "left" ∧
    (start_handler { emptyReq with rotate_dir := some "up" }
        { initState with base_first_side := "right", rotate_dir := "right" }).1.rotate_dir =
      "left" :=
  side_selector_validation
    { initState with base_first_side := "right", rotate_dir := "right" } "up"
    (by decide) (by decide)

/-- Claim C7 (counterexample): `search_intensity` is NOT reset to 1.0 when
the grace period expires while lost.  From a running state biased
SLIGHT_RIGHT (grace 800 ms): the tick at t=0 flags the loss, the tick at
t=50 escalates to 1.5 and pivots, and the tick at t=850 — past the grace
period — issues the all-stop directly, leaving `search_intensity` at 1.5. -/
theorem search_intensity_grace_cex :
    (runSteps { initState with robot_running := true, last_direction := Action.SLIGHT_RIGHT }
        [Step.line 0 false false false false false,
         Step.line 50 false false false false false,
         Step.line 850 false false false false false]).1.search_intensity ≠ 1 := by
  have h :
      (runSteps { initState with robot_running := true, last_direction := Action.SLIGHT_RIGHT }
          [Step.line 0 false false false false false,
           Step.line 50 false false false false false,
           Step.line 850 false false false false false]).1.search_intensity =
        (1.0 : ℚ) * 1.5 := rfl
  rw [h]
  norm_num

/-- Claim C7 (amended): while running and already flagged lost, a LINE_LOST
tick inside the grace window multiplies `search_intensity` by 1.5 provided
`last_direction` holds a LEFT/RIGHT bias (with no bias the recursive
re-apply of FORWARD resets it to 1.0 instead); any confident directional
classification resets it to exactly 1.0; when the grace period expires
while lost, the tick issues an all-stop and leaves the whole state —
including the escalated `search_intensity` — unchanged; and every
false→true transition of `running` goes through `resume_line_follow`, which
resets it to 1.0. -/
theorem search_intensity_dynamics :
    (∀ (st : SharedState) (now : Int),
      st.robot_running = true → st.line_lost = true →
      now - st.line_lost_time < st.grace_period →
      (hasRight st.last_direction = true ∨ hasLeft st.last_direction = true) →
      (line_follow_callback now false false false false false st).1.search_intensity =
        st.search_intensity * 1.5) ∧
    (∀ (st : SharedState) (now : Int) (s0 s1 s2 s3 s4 : Bool),
      st.robot_running = true →
      isConfident (decide_action s0 s1 s2 s3 s4) = true →
      (line_follow_callback now s0 s1 s2 s3 s4 st).1.search_intensity = 1.0) ∧
    (∀ (st : SharedState) (now : Int),
      st.robot_running = true → st.line_lost = true →
      now - st.line_lost_time ≥ st.grace_period →
      line_follow_callback now false false false false false st =
        (st, [Cmd.stopAllMotors])) ∧
    (∀ st : SharedState, (resume_line_follow st).search_intensity = 1.0) := by
  refine ⟨?_, ?_, ?_, ?_⟩
  · intro st now hrun hlost hlt hdir
    have hact : decide_action false false false false false = Action.LINE_LOST := rfl
    rcases hdir with h | h <;>
      simp [line_follow_callback, hrun, hact, hlost, set_motor_action,
        set_motor_action_fuel, h, hlt, not_le.mpr hlt] <;>
      split <;> rfl
  · intro st now s0 s1 s2 s3 s4 hrun hconf
    cases hact : decide_action s0 s1 s2 s3 s4 <;> rw [hact] at hconf <;>
      first
        | exact absurd hconf (by decide)
        | cases hl : st.line_lost <;>
            simp [line_follow_callback, hrun, hact, hl, set_motor_action,
              set_motor_action_fuel]
  · intro st now hrun hlost hge
    have hact : decide_action false false false false false = Action.LINE_LOST := rfl
    simp [line_follow_callback, hrun, hact, hlost, hge]
  · intro st
    rfl

/-- Claim C7 witness: a concrete escalation step — running, flagged lost at
t=0 with a SLIGHT_RIGHT bias and intensity 1, the tick at t=100 (inside the
800 ms grace window) raises the intensity to 1 * 1.5. -/
theorem search_intensity_dynamics_witness :
    (line_follow_callback 100 false false false false false
        { initState with
            robot_running := true
            line_lost := true
            last_direction := Action.SLIGHT_RIGHT }).1.search_intensity =
      ({ initState with
          robot_running := true
          line_lost := true
          last_direction := Action.SLIGHT_RIGHT } : SharedState).search_intensity * 1.5 :=
  search_intensity_dynamics.1
    { initState with
        robot_running := true
        line_lost := true
        last_direction := Action.SLIGHT_RIGHT } 100 rfl rfl (by norm_num [initState])
    (Or.inl rfl)

/-- Claim C2: from ARM_SEQ at stage 0, for any tunables, a run of mission
ticks (scheduled so every stage's dwell has just elapsed) emits exactly the
sequence base→first side, gripper close, arm transport, base→other side,
arm down, gripper open, arm transport + reverse start, reverse stop +
rotate start, rotate stop, and ends in mode RETURNING; moreover ANY schedule of
mission ticks whose run reaches RETURNING emits exactly that sequence, a
tick never advances a gated stage (1–8) before its configured dwell has
elapsed since stage entry, and every tick changes the stage by at most one
(no stage skipped or repeated). -/
theorem mission_sequencer_behaviour (st : SharedState)
    (hm : st.mission_mode = Mode.ARM_SEQ) (hs : st.mission_stage = 0) :
    ((runMission st (missionSchedule st)).2 = expectedTrace st ∧
     (runMission st (missionSchedule st)).1.mission_mode = Mode.RETURNING) ∧
    (∀ ts : List Int,
      (runMission st ts).1.mission_mode = Mode.RETURNING →
      (runMission st ts).2 = expectedTrace st) ∧
    (∀ (s : SharedState) (now : Int),
      s.mission_mode = Mode.ARM_SEQ → 1 ≤ s.mission_stage → s.mission_stage ≤ 8 →
      now - s.mission_stage_started < stageDwell s s.mission_stage →
      mission_callback now s = (s, [])) ∧
    (∀ (s : SharedState) (now : Int),
      (mission_callback now s).1.mission_stage = s.mission_stage ∨
      (mission_callback now s).1.mission_stage = s.mission_stage + 1) := by
  refine ⟨?_, ?_, ?_, ?_⟩
  · have e0 : mission_callback 0 st =
        ({ st with mission_stage_started := (0 : Int), mission_stage := 1 },
         [Cmd.controlServo 0 (base_angle_for st st.base_first_side)]) :=
      mc_stage0 st 0 hm hs
    have e1 : mission_callback st.servo_settle_ms
        { st with mission_stage_started := (0 : Int), mission_stage := 1 } =
        ({ st with mission_stage_started := st.servo_settle_ms, mission_stage := 2 },
         [Cmd.controlServo 2 st.grip_close_angle]) :=
      mc_stage1 _ _ hm rfl
        (by show st.servo_settle_ms - 0 ≥ st.servo_settle_ms; omega)
    have e2 : mission_callback (2 * st.servo_settle_ms)
        { st with mission_stage_started := st.servo_settle_ms, mission_stage := 2 } =
        ({ st with mission_stage_started := 2 * st.servo_settle_ms, mission_stage := 3 },
         [Cmd.controlServo 1 st.arm_transport_angle]) :=
      mc_stage2 _ _ hm rfl
        (by show 2 * st.servo_settle_ms - st.servo_settle_ms ≥ st.servo_settle_ms; omega)
    have e3 : mission_callback (3 * st.servo_settle_ms)
        { st with mission_stage_started := 2 * st.servo_settle_ms, mission_stage := 3 } =
        ({ st with mission_stage_started := 3 * st.servo_settle_ms, mission_stage := 4 },
         [Cmd.controlServo 0
            (base_angle_for st (if st.base_first_side = "left" then "right" else "left"))]) :=
      mc_stage3 _ _ hm rfl
        (by show 3 * st.servo_settle_ms - 2 * st.servo_settle_ms ≥ st.servo_settle_ms; omega)
    have e4 : mission_callback (4 * st.servo_settle_ms)
        { st with mission_stage_started := 3 * st.servo_settle_ms, mission_stage := 4 } =
        ({ st with mission_stage_started := 4 * st.servo_settle_ms, mission_stage := 5 },
         [Cmd.controlServo 1 st.arm_down_angle]) :=
      mc_stage4 _ _ hm rfl
        (by show 4 * st.servo_settle_ms - 3 * st.servo_settle_ms ≥ st.servo_settle_ms; omega)
    have e5 : mission_callback (5 * st.servo_settle_ms)
        { st with mission_stage_started := 4 * st.servo_settle_ms, mission_stage := 5 } =
        ({ st with mission_stage_started := 5 * st.servo_settle_ms, mission_stage := 6 },
         [Cmd.controlServo 2 st.grip_open_angle]) :=
      mc_stage5 _ _ hm rfl
        (by show 5 * st.servo_settle_ms - 4 * st.servo_settle_ms ≥ st.servo_settle_ms; omega)
    have e6 : mission_callback (6 * st.servo_settle_ms)
        { st with mission_stage_started := 5 * st.servo_settle_ms, mission_stage := 6 } =
        ({ st with mission_stage_started := 6 * st.servo_settle_ms, mission_stage := 7 },
         Cmd.controlServo 1 st.arm_transport_angle :: reverseCmds st) :=
      mc_stage6 _ _ hm rfl
        (by show 6 * st.servo_settle_ms - 5 * st.servo_settle_ms ≥ st.servo_settle_ms; omega)
    have e7 : mission_callback (6 * st.servo_settle_ms + st.reverse_time_ms)
        { st with mission_stage_started := 6 * st.servo_settle_ms, mission_stage := 7 } =
        ({ st with
            mission_stage_started := 6 * st.servo_settle_ms + st.reverse_time_ms
            mission_stage := 8 },
         Cmd.stopAllMotors :: rotateCmds st) :=
      mc_stage7 _ _ hm rfl
        (by
          show 6 * st.servo_settle_ms + st.reverse_time_ms - 6 * st.servo_settle_ms ≥
            st.reverse_time_ms
          omega)
    have e8 : mission_callback (6 * st.servo_settle_ms + st.reverse_time_ms + st.rotate_time_ms)
        { st with
            mission_stage_started := 6 * st.servo_settle_ms + st.reverse_time_ms
            mission_stage := 8 } =
        ({ st with
            mission_stage_started := 6 * st.servo_settle_ms + st.reverse_time_ms
            mission_stage := 9 },
         [Cmd.stopAllMotors]) :=
      mc_stage8 _ _ hm rfl
        (by
          show 6 * st.servo_settle_ms + st.reverse_time_ms + st.rotate_time_ms -
            (6 * st.servo_settle_ms + st.reverse_time_ms) ≥ st.rotate_time_ms
          omega)
    have e9 : mission_callback (6 * st.servo_settle_ms + st.reverse_time_ms + st.rotate_time_ms)
        { st with
            mission_stage_started := 6 * st.servo_settle_ms + st.reverse_time_ms
            mission_stage := 9 } =
        ({ st with
            robot_running := true
            line_lost := false
            search_intensity := 1.0
            last_direction := Action.FORWARD
            mission_mode := Mode.RETURNING
            mission_stage := 9
            mission_stage_started := 6 * st.servo_settle_ms + st.reverse_time_ms
            mission_status_text := "Returning to start" }, []) :=
      mc_stage9 _ _ hm rfl
    have hrun : runMission st (missionSchedule st) =
        ({ st with
            robot_running := true
            line_lost := false
            search_intensity := 1.0
            last_direction := Action.FORWARD
            mission_mode := Mode.RETURNING
            mission_stage := 9
            mission_stage_started := 6 * st.servo_settle_ms + st.reverse_time_ms
            mission_status_text := "Returning to start" },
         expectedTrace st) := by
      show runMission st
          [0, st.servo_settle_ms, 2 * st.servo_settle_ms, 3 * st.servo_settle_ms,
           4 * st.servo_settle_ms, 5 * st.servo_settle_ms, 6 * st.servo_settle_ms,
           6 * st.servo_settle_ms + st.reverse_time_ms,
           6 * st.servo_settle_ms + st.reverse_time_ms + st.rotate_time_ms,
           6 * st.servo_settle_ms + st.reverse_time_ms + st.rotate_time_ms] = _
      rw [runMission_cons, e0]; dsimp only
      rw [runMission_cons, e1]; dsimp only
      rw [runMission_cons, e2]; dsimp only
      rw [runMission_cons, e3]; dsimp only
      rw [runMission_cons, e4]; dsimp only
      rw [runMission_cons, e5]; dsimp only
      rw [runMission_cons, e6]; dsimp only
      rw [runMission_cons, e7]; dsimp only
      rw [runMission_cons, e8]; dsimp only
      rw [runMission_cons, e9]; dsimp only
      simp [runMission, expectedTrace]
    rw [hrun]
    exact ⟨rfl, rfl⟩
  · intro ts hr
    rw [runMission_trace ts st hm hr, hs]
    simp [stageTrace, traceFrom0, traceFrom1, traceFrom2, traceFrom3,
      traceFrom4, traceFrom5, traceFrom6, traceFrom7, traceFrom8,
      expectedTrace]
  · intro s now hm1 h1 h8 hlt
    have hk : s.mission_stage = 1 ∨ s.mission_stage = 2 ∨ s.mission_stage = 3 ∨
        s.mission_stage = 4 ∨ s.mission_stage = 5 ∨ s.mission_stage = 6 ∨
        s.mission_stage = 7 ∨ s.mission_stage = 8 := by omega
    rcases hk with hk | hk | hk | hk | hk | hk | hk | hk <;>
      simp [stageDwell, hk] at hlt <;>
      simp [mission_callback, hm1, hk, not_le.mpr hlt]
  · intro s now
    by_cases hm1 : s.mission_mode = Mode.ARM_SEQ
    · simp only [mission_callback, hm1, ne_eq, not_true_eq_false, if_false]
      split <;> try split
      all_goals simp_all [resume_line_follow]
    · simp [mission_callback, hm1]

/-- Claim C2 witness: the full stage pass run from a concrete ARM_SEQ
state with the default tunables. -/
theorem mission_sequencer_behaviour_witness :
    (runMission { initState with mission_mode := Mode.ARM_SEQ }
        (missionSchedule { initState with mission_mode := Mode.ARM_SEQ })).2 =
      expectedTrace { initState with mission_mode := Mode.ARM_SEQ } ∧
    (runMission { initState with mission_mode := Mode.ARM_SEQ }
        (missionSchedule { initState with mission_mode := Mode.ARM_SEQ })).1.mission_mode =
      Mode.RETURNING :=
  (mission_sequencer_behaviour { initState with mission_mode := Mode.ARM_SEQ } rfl rfl).1

end PicoBot
